import Mathlib

/-
Verification of the LumpGEM core (pytfa/lumpgem/lumpgem.py) and the
RequirePrefixMeta metaclass (pytfa/optim/meta.py) against their
natural-language specification.

The Python code is shallowly embedded: reactions are records, the mutable
object state of `LumpGEM.__init__` / `lump_reaction` is threaded explicitly,
Python exceptions become `Except String`, and float arithmetic is modelled
over the rationals.
-/

/-- A cobra reaction as the LumpGEM code observes it: an id, a subsystem
label, and a stoichiometry (metabolite id, coefficient) association list. -/
structure Reaction where
  id : String
  subsystem : String
  mets : List (String × ℚ)
deriving DecidableEq

/-- Stoichiometric coefficient of metabolite `m` in reaction `r`
(0 when `m` does not take part in `r`; cobra metabolite dicts have
unique keys, so the first match is the coefficient). -/
def coeff (r : Reaction) (m : String) : ℚ :=
  ((r.mets.find? (fun p => decide (p.1 = m))).map (fun p => p.2)).getD 0

/-- The partition fields of the `LumpGEM` object.  The source initializes
`_rcore`, `_mcore` and `_rncore` to empty sets but never initializes
`_rBBB`, which the classification loop nevertheless calls `.add` on;
`rBBB = none` models the attribute being undefined. -/
structure PartitionState where
  rBBB : Option (List Reaction)
  rcore : List Reaction
  mcore : List String
  rncore : List Reaction
deriving DecidableEq

/-- State right before the classification loop of `LumpGEM.__init__`:
`self._rcore = set([])`, `self._mcore = set([])`, `self._rncore = set([])`,
and no `self._rBBB` attribute at all. -/
def initPartitionState : PartitionState :=
  { rBBB := none, rcore := [], mcore := [], rncore := [] }

/-- The AttributeError raised by `self._rBBB.add(rxn)` when `_rBBB` was
never assigned. -/
def attrErrRBBB : String :=
  "AttributeError: LumpGEM object has no attribute _rBBB"

/-- Python set-add of the metabolite ids of a stoichiometry into the
core-metabolite set (`for met in rxn.metabolites: self._mcore.add(met)`). -/
def addMets (mcore : List String) (mets : List (String × ℚ)) : List String :=
  mets.foldl (fun acc p => if p.1 ∈ acc then acc else acc ++ [p.1]) mcore

/-- The classification loop of `LumpGEM.__init__`: for each reaction, if its
id is in `biomass_rxns` it is added to `_rBBB` (which raises AttributeError,
since `_rBBB` is never initialized); else if its subsystem is in
`core_subsystems` it goes to `_rcore` and its metabolites to `_mcore`;
else it goes to `_rncore`. -/
def partitionRxns (biomass core : List String) :
    List Reaction → PartitionState → Except String PartitionState
  | [], st => Except.ok st
  | rxn :: rest, st =>
    if rxn.id ∈ biomass then
      match st.rBBB with
      | none => Except.error attrErrRBBB
      | some l =>
        partitionRxns biomass core rest { st with rBBB := some (l ++ [rxn]) }
    else if rxn.subsystem ∈ core then
      partitionRxns biomass core rest
        { st with rcore := st.rcore ++ [rxn], mcore := addMets st.mcore rxn.mets }
    else
      partitionRxns biomass core rest { st with rncore := st.rncore ++ [rxn] }

/-- A loaded cobra model: the only part of it the LumpGEM core reads is its
reaction collection. -/
structure CModel where
  reactions : List Reaction
deriving DecidableEq

/-- The four format-specific loaders `_load_model` dispatches to
(`import_matlab_model`, `load_yaml_model`, `load_json_model`,
`read_sbml_model`).  They are external collaborators, so they enter the
embedding as opaque-by-parameter total functions. -/
structure LoaderSet where
  mat : String → CModel
  yml : String → CModel
  json : String → CModel
  xml : String → CModel

/-- `LumpGEM._load_model`: dispatch on the path suffix
(`path_to_model[-4:]` or `[-5:]` for json); when no suffix matches, the
method falls off the end and Python returns `None`, modelled as `none`. -/
def load_model (L : LoaderSet) (path : String) : Option CModel :=
  if path.takeRight 4 = ".mat" then some (L.mat path)
  else if path.takeRight 4 = ".yml" then some (L.yml path)
  else if path.takeRight 5 = ".json" then some (L.json path)
  else if path.takeRight 4 = ".xml" then some (L.xml path)
  else none

/-- Atoms of the linear expressions the constraint builder manipulates:
a reaction forward flux variable, a reaction reverse flux variable, or a
non-core reaction indicator variable. -/
inductive Atom where
  | fwd (rid : String)
  | rev (rid : String)
  | ind (rid : String)
deriving DecidableEq

/-- A linear constraint as built through `self._tfa_model.problem.Constraint`:
a list of (atom, coefficient) terms with optional bounds. -/
structure LinCons where
  terms : List (Atom × ℚ)
  lb : Option ℚ
  ub : Option ℚ
deriving DecidableEq

/-- The coupling constraint `_generate_constraints` builds for one non-core
reaction: `rxn.forward_variable + rxn.reverse_variable + C_uptake * var`
with upper bound `C_uptake`. -/
def couplingFor (C : ℚ) (rid : String) : LinCons :=
  { terms := [(Atom.fwd rid, 1), (Atom.rev rid, 1), (Atom.ind rid, C)],
    lb := none, ub := some C }

/-- Modelled from the spec: `BinaryVariable` lives in pytfa/optim/variables.py,
which is not part of the analysed sources; the spec describes it as one
binary variable per non-core reaction, named deterministically from the
reaction id.  `_generate_binary_variables` therefore maps each non-core
reaction to its deterministic variable name. -/
def generate_binary_variables (rncore : List Reaction) : List String :=
  rncore.map (fun r => r.id)

/-- `_generate_constraints`: one coupling constraint per non-core reaction
(iterating the keys of the `_bin_vars` dict, which are exactly the
non-core reactions). -/
def generate_constraints (C : ℚ) (rncore : List Reaction) : List LinCons :=
  rncore.map (fun r => couplingFor C r.id)

/-- The observable state the `LumpGEM` constructor produces: the partition,
the two numeric parameters, the registered indicator variables and the
registered coupling constraints. -/
structure LumpGEMState where
  part : PartitionState
  C_uptake : ℚ
  growth_rate : ℚ
  binVars : List String
  coupling : List LinCons
deriving DecidableEq

/-- The AttributeError raised when the `None` returned by `_load_model` for
an unrecognized extension flows into the constructor, which then iterates
`model.reactions`. -/
def noneTypeErr : String :=
  "AttributeError: NoneType object has no attribute reactions"

/-- `LumpGEM.__init__`: load the model by path suffix (an unrecognized
suffix yields `None`, and the subsequent use of the model raises
AttributeError), run the classification loop, then register one binary
variable and one coupling constraint per non-core reaction.  The
thermodynamic-formulation construction (`_apply_thermo_constraints`) is an
external collaborator and adds nothing observed here. -/
def lumpgem_init (L : LoaderSet) (path : String) (biomass core : List String)
    (C g : ℚ) : Except String LumpGEMState :=
  match load_model L path with
  | none => Except.error noneTypeErr
  | some mdl =>
    match partitionRxns biomass core mdl.reactions initPartitionState with
    | Except.error e => Except.error e
    | Except.ok part =>
      Except.ok { part := part, C_uptake := C, growth_rate := g,
                  binVars := generate_binary_variables part.rncore,
                  coupling := generate_constraints C part.rncore }

/-- Whether a constraint contains a term on the indicator variable of the
reaction id `rid`. -/
def mentionsInd (rid : String) (c : LinCons) : Bool :=
  c.terms.any (fun t => decide (t.1 = Atom.ind rid))

/-- A reaction whose id is listed as a biomass reaction. -/
def rxnBio : Reaction := { id := "B", subsystem := "s1", mets := [] }

/-- A reaction that is both biomass-listed (by id) and core (by subsystem). -/
def rxnBioCore : Reaction :=
  { id := "B2", subsystem := "Glycolysis", mets := [("m1", 1)] }

/-- A plain core reaction. -/
def rxnCoreGly : Reaction :=
  { id := "R1c", subsystem := "Glycolysis", mets := [("m0", 1)] }

/-- A biomass-listed reaction with core subsystem and a metabolite, used to
probe the core-metabolite set. -/
def rxnBioCoreMet : Reaction :=
  { id := "B3", subsystem := "Glycolysis", mets := [("m1", 2)] }

/-- A plain core reaction used by concrete instantiations. -/
def rxnR1 : Reaction :=
  { id := "R1", subsystem := "Glycolysis", mets := [("m1", 2)] }

/-- A plain non-core reaction used by concrete instantiations. -/
def rxnR3 : Reaction :=
  { id := "R3", subsystem := "Misc", mets := [("m1", -1), ("s", 1)] }

/-- A concrete two-reaction model. -/
def cmdlW : CModel := { reactions := [rxnR1, rxnR3] }

/-- Concrete loaders that all return the model above. -/
def loadersW : LoaderSet :=
  { mat := fun _ => cmdlW, yml := fun _ => cmdlW,
    json := fun _ => cmdlW, xml := fun _ => cmdlW }

/-- The constructor state produced from `cmdlW` with core subsystem
Glycolysis, no biomass ids, carbon uptake 10 and growth rate 1. -/
def stW : LumpGEMState :=
  { part := { rBBB := none, rcore := [rxnR1], mcore := ["m1"],
              rncore := [rxnR3] },
    C_uptake := 10, growth_rate := 1,
    binVars := ["R3"], coupling := [couplingFor 10 "R3"] }

/-- An item registered in the optimization problem through `add_cons_vars`:
either the transient growth constraint built in `lump_reaction`
(`Constraint(bio_rxn.flux_expression, lb=self._growth_rate)`) or any other
registered constraint or variable, identified by name. -/
inductive PItem where
  | growth (rid : String) (lb : ℚ)
  | item (name : String)
deriving DecidableEq

/-- A solver solution: `solution.fluxes` is a finite id-to-flux mapping
(a pandas Series whose `.get` returns None on a missing id), and variable
primals are read per variable name. -/
structure Solution where
  fluxes : List (String × ℚ)
  primal : String → ℚ

/-- `solution.fluxes.get(rid)`: the flux value, or `none` (Python None)
when the id has no entry. -/
def fluxGet (sol : Solution) (rid : String) : Option ℚ :=
  (sol.fluxes.find? (fun p => decide (p.1 = rid))).map (fun p => p.2)

/-- The TypeError Python raises when the None returned by `.get` for a
missing flux id is multiplied into the reaction stoichiometry. -/
def typeErrMsg : String :=
  "TypeError: unsupported operand type for *: float and NoneType"

/-- `rxn * solution.fluxes.get(rxn.id)`: scaling a reaction stoichiometry
by the looked-up flux; a missing flux id gives None and the multiplication
raises TypeError. -/
def rxnTimesFlux (sol : Solution) (r : Reaction) :
    Except String (String → ℚ) :=
  match fluxGet sol r.id with
  | none => Except.error typeErrMsg
  | some v => Except.ok (fun m => coeff r m * v)

/-- `rxn * solution.fluxes.get(rxn.id) * self._bin_vars[rxn].Variable.primal`:
as above, further scaled by the primal of the reaction indicator variable.
Modelled from the spec: the indicator primal accessor lives in
pytfa/optim/variables.py, outside the analysed sources; per the spec it
reads the solved primal of the indicator named from the reaction id. -/
def rxnTimesFluxTimesPrimal (sol : Solution) (r : Reaction) :
    Except String (String → ℚ) :=
  match fluxGet sol r.id with
  | none => Except.error typeErrMsg
  | some v => Except.ok (fun m => coeff r m * v * sol.primal r.id)

/-- `sum([...])` over a comprehension of scaled reactions: elements are
evaluated left to right, the first exception propagates, and the
stoichiometries are added pointwise (the empty sum is the zero
stoichiometry). -/
def sumScaledE (f : Reaction → Except String (String → ℚ)) :
    List Reaction → Except String (String → ℚ)
  | [] => Except.ok (fun _ => 0)
  | r :: rs =>
    match f r with
    | Except.error e => Except.error e
    | Except.ok g =>
      match sumScaledE f rs with
      | Except.error e => Except.error e
      | Except.ok h => Except.ok (fun m => g m + h m)

/-- The core contribution of `lump_reaction`:
`sum([rxn * solution.fluxes.get(rxn.id) for rxn in self._rcore])`. -/
def lumped_core_fn (sol : Solution) (rcore : List Reaction) :
    Except String (String → ℚ) :=
  sumScaledE (rxnTimesFlux sol) rcore

/-- The non-core contribution of `lump_reaction`: as the core one, with
each term further scaled by the indicator primal. -/
def lumped_ncore_fn (sol : Solution) (rncore : List Reaction) :
    Except String (String → ℚ) :=
  sumScaledE (rxnTimesFluxTimesPrimal sol) rncore

/-- The LumpGEM fields `lump_reaction` and `run_optimisation` read. -/
structure LumpData where
  rcore : List Reaction
  rncore : List Reaction
  growth_rate : ℚ

/-- The mutable shared problem state: the registered constraints and
variables, and the per-reaction thermodynamic computation flag
(`rxn.thermo` at the key computed). -/
structure MState where
  consVars : List PItem
  thermo : String → Bool

/-- The calls `run_optimisation` makes, in order. -/
inductive DriverEvent where
  | prepare
  | deactivate (rid : String)
  | convert
  | solve
deriving DecidableEq

/-- `ncrxn.thermo[computed] = False` for one reaction id. -/
def deactivateThermo (f : String → Bool) (rid : String) : String → Bool :=
  fun x => if x = rid then false else f x

/-- `LumpGEM.run_optimisation`: prepare the formulation, set the
thermodynamic computation flag of every non-core reaction to False,
convert, then solve and return the solver result.  `prepare` and `convert`
are external collaborator calls whose own effect lives in the opaque
thermodynamic formulation; the orchestration itself touches only the
thermo flags, and the solver is an explicit parameter.  The first
component records the calls made, in order. -/
def run_optimisation (solver : MState → Except String Solution)
    (d : LumpData) (st : MState) :
    List DriverEvent × MState × Except String Solution :=
  let st1 : MState :=
    { st with
        thermo := d.rncore.foldl (fun f r => deactivateThermo f r.id) st.thermo }
  ([DriverEvent.prepare]
      ++ d.rncore.map (fun r => DriverEvent.deactivate r.id)
      ++ [DriverEvent.convert, DriverEvent.solve],
   st1, solver st1)

/-- `self._tfa_model.add_cons_vars(c)`. -/
def add_cons_vars (st : MState) (c : PItem) : MState :=
  { st with consVars := st.consVars ++ [c] }

/-- `self._tfa_model.remove_cons_vars(c)`: removes that registered item. -/
def remove_cons_vars (st : MState) (c : PItem) : MState :=
  { st with consVars := st.consVars.eraseP (fun x => decide (x = c)) }

/-- `LumpGEM.lump_reaction(bio_rxn)`: register the transient growth
constraint, run the optimisation, aggregate the core and non-core
contributions, remove the growth constraint, and return the lumped
stoichiometry.  The removal is executed only on the success path, exactly
as in the source (there is no try/finally); on any raised error the
constraint stays registered.  Returns the Python result (or the
propagated exception) together with the problem state after the call. -/
def lump_reaction (solver : MState → Except String Solution) (d : LumpData)
    (st : MState) (bio : Reaction) :
    Except String (String → ℚ) × MState :=
  let c : PItem := PItem.growth bio.id d.growth_rate
  let st1 := add_cons_vars st c
  let out := run_optimisation solver d st1
  match out.2.2 with
  | Except.error e => (Except.error e, out.2.1)
  | Except.ok solution =>
    match lumped_core_fn solution d.rcore with
    | Except.error e => (Except.error e, out.2.1)
    | Except.ok lc =>
      match lumped_ncore_fn solution d.rncore with
      | Except.error e => (Except.error e, out.2.1)
      | Except.ok lnc =>
        (Except.ok (fun m => lc m + lnc m), remove_cons_vars out.2.1 c)

/-- The error of a Python-level result, if any. -/
def errOf (x : Except String (String → ℚ)) : Option String :=
  match x with
  | Except.error e => some e
  | Except.ok _ => none

/-- Number of GrowthConstraints registered in the problem. -/
def countGrowth (l : List PItem) : Nat :=
  l.countP (fun x =>
    match x with
    | PItem.growth _ _ => true
    | PItem.item _ => false)

/-- A biomass reaction to lump. -/
def bioB : Reaction :=
  { id := "BM1", subsystem := "Biomass", mets := [("bm", 1)] }

/-- Concrete LumpGEM data with one core and one non-core reaction. -/
def dEx : LumpData := { rcore := [rxnR1], rncore := [rxnR3], growth_rate := 1 }

/-- A problem state with no registered growth constraint and all thermo
flags active. -/
def stEx : MState :=
  { consVars := [PItem.item ("coupling_R3")], thermo := fun _ => true }

/-- The message of a solver failure. -/
def infeasibleMsg : String := "infeasible"

/-- A solver whose solve step raises. -/
def failSolver : MState → Except String Solution :=
  fun _ => Except.error infeasibleMsg

/-- A solution missing the flux entry of the core reaction R1. -/
def solMissing : Solution := { fluxes := [("R3", 3)], primal := fun _ => 1 }

/-- A solver returning `solMissing`. -/
def solverMissing : MState → Except String Solution :=
  fun _ => Except.ok solMissing

/-- A solution carrying fluxes for both reactions of `dEx`. -/
def solFull : Solution :=
  { fluxes := [("R1", 2), ("R3", 3)], primal := fun _ => 1 }

/-- A solver returning `solFull`. -/
def solverFull : MState → Except String Solution :=
  fun _ => Except.ok solFull

/-- A Python attribute value as the metaclass check observes it: either the
NotImplemented sentinel or some other value.  `attrs.get` compares with
`is NotImplemented`, so only the sentinel itself matches. -/
inductive PyVal where
  | notImpl
  | val (s : String)
deriving DecidableEq

/-- `attrs.get(key, default)` on the class attribute dict. -/
def dictGetD (attrs : List (String × PyVal)) (k : String) (dflt : PyVal) :
    PyVal :=
  ((attrs.find? (fun p => decide (p.1 = k))).map (fun p => p.2)).getD dflt

/-- The NotImplementedError raised by RequirePrefixMeta. -/
def notImplErrMsg : String :=
  "NotImplementedError: You forgot to define a prefix for your class ;)"

/-- `RequirePrefixMeta.__init__` (pytfa/optim/meta.py): skip the check when
the new class has no parent classes (base classes are exempt); otherwise
raise NotImplementedError when the class body does not bind the required
naming attribute (or binds it to the NotImplemented sentinel). -/
def requirePrefixMetaInit (bases : List String)
    (attrs : List (String × PyVal)) : Except String Unit :=
  if bases = [] then Except.ok ()
  else if dictGetD attrs ("prefix") PyVal.notImpl = PyVal.notImpl then
    Except.error notImplErrMsg
  else Except.ok ()

/-- Claim C1: the spec says the constructor partitioning step classifies
every reaction into exactly one of Biomass, Core, Non-core, and can never
fail.  In the source the loop executes `self._rBBB.add(rxn)` but the
attribute `_rBBB` is never initialized, so the classification raises
AttributeError for any reaction whose id is in the biomass set.  This
theorem evaluates the embedded loop at such an input. -/
theorem C1_partition_attribute_error :
    partitionRxns [rxnBio.id] [] [rxnBio] initPartitionState
      = Except.error attrErrRBBB := by
  rfl

/-- Claim C6: the spec says a reaction whose id is in the biomass set is
placed in the Biomass set even when its subsystem matches a core subsystem.
The id branch is indeed taken first, but placement into the Biomass set
crashes on the uninitialized `_rBBB` attribute instead of succeeding. -/
theorem C6_biomass_priority_crash :
    partitionRxns [rxnBioCore.id] [rxnBioCore.subsystem] [rxnBioCore]
      initPartitionState = Except.error attrErrRBBB := by
  rfl

/-- Claim C10: the spec says a biomass-id reaction contributes none of its
metabolites to the core-metabolite set even when its subsystem is core.
In the source the constructor crashes on the uninitialized `_rBBB` as soon
as the biomass-id reaction is reached, so no core-metabolite set is
produced at all. -/
theorem C10_core_metabolites_crash :
    partitionRxns [rxnBioCoreMet.id] [rxnCoreGly.subsystem]
      [rxnCoreGly, rxnBioCoreMet] initPartitionState
      = Except.error attrErrRBBB := by
  rfl

/-- The non-core reaction list a successful classification run produces is a
sublist of the processed reactions (extended from the non-core list the run
started with), id-wise. -/
theorem partition_rncore_sublist (biomass core : List String)
    (l : List Reaction) (st st' : PartitionState)
    (h : partitionRxns biomass core l st = Except.ok st') :
    List.Sublist (st'.rncore.map (fun x => x.id))
      (st.rncore.map (fun x => x.id) ++ l.map (fun x => x.id)) := by
  induction l generalizing st with
  | nil =>
    simp only [partitionRxns, Except.ok.injEq] at h
    subst h
    simp
  | cons a rest ih =>
    simp only [partitionRxns] at h
    by_cases hb : a.id ∈ biomass
    · rw [if_pos hb] at h
      cases hB : st.rBBB with
      | none => rw [hB] at h; cases h
      | some lB =>
        rw [hB] at h
        have := ih _ h
        simp only at this
        refine this.trans ?_
        refine (List.append_sublist_append_left _).mpr ?_
        exact List.sublist_cons_self _ _
    · rw [if_neg hb] at h
      by_cases hc : a.subsystem ∈ core
      · rw [if_pos hc] at h
        have := ih _ h
        simp only at this
        refine this.trans ?_
        refine (List.append_sublist_append_left _).mpr ?_
        exact List.sublist_cons_self _ _
      · rw [if_neg hc] at h
        have := ih _ h
        simp only [List.map_append, List.map_cons, List.map_nil] at this
        simpa [List.append_assoc] using this

/-- The generated coupling constraint for reaction id `x` mentions the
indicator of `rid` exactly when `x = rid`. -/
theorem mentionsInd_couplingFor (C : ℚ) (x rid : String) :
    mentionsInd rid (couplingFor C x) = decide (x = rid) := by
  by_cases h : x = rid
  · subst h
    simp [mentionsInd, couplingFor]
  · simp [mentionsInd, couplingFor, h]

/-- No generated constraint mentions the indicator of an id absent from the
generating reaction list. -/
theorem gen_filter_not_mem (C : ℚ) (rid : String) (l : List Reaction)
    (h : rid ∉ l.map (fun x => x.id)) :
    (generate_constraints C l).filter (mentionsInd rid) = [] := by
  induction l with
  | nil => rfl
  | cons a rest ih =>
    have ha : ¬ (a.id = rid) := by
      intro e
      exact h (by simp [e])
    have hrest : rid ∉ rest.map (fun x => x.id) := by
      intro hm
      exact h (by simp [hm])
    have hneg : mentionsInd rid (couplingFor C a.id) = false := by
      rw [mentionsInd_couplingFor]
      exact decide_eq_false ha
    simp only [generate_constraints, List.map_cons]
    rw [List.filter_cons, hneg]
    simpa [generate_constraints] using ih hrest

/-- With pairwise-distinct reaction ids, the generated constraints mention
the indicator of a listed id in exactly one constraint, of the coupling
form. -/
theorem gen_filter_mem (C : ℚ) (rid : String) (l : List Reaction)
    (hnd : (l.map (fun x => x.id)).Nodup) (hmem : rid ∈ l.map (fun x => x.id)) :
    (generate_constraints C l).filter (mentionsInd rid) = [couplingFor C rid] := by
  induction l with
  | nil => simp at hmem
  | cons a rest ih =>
    rw [List.map_cons] at hnd hmem
    have hnda := (List.nodup_cons.mp hnd).1
    have hndr := (List.nodup_cons.mp hnd).2
    rcases List.mem_cons.mp hmem with h | h
    · have hnot : rid ∉ rest.map (fun x => x.id) := by
        rw [h]
        exact hnda
      have hpos : mentionsInd rid (couplingFor C a.id) = true := by
        rw [mentionsInd_couplingFor]
        exact decide_eq_true h.symm
      have hnil := gen_filter_not_mem C rid rest hnot
      simp only [generate_constraints, List.map_cons] at hnil ⊢
      rw [List.filter_cons, hpos]
      rw [if_pos rfl, hnil, h]
    · have hne : ¬ (a.id = rid) := by
        intro e
        exact hnda (e ▸ h)
      have hneg : mentionsInd rid (couplingFor C a.id) = false := by
        rw [mentionsInd_couplingFor]
        exact decide_eq_false hne
      simp only [generate_constraints, List.map_cons]
      rw [List.filter_cons, hneg]
      simpa [generate_constraints] using ih hndr h

/-- Claim C5: for every non-core reaction of a successfully constructed
LumpGEM with pairwise-distinct reaction ids, exactly one coupling
constraint is registered at initialization, of the form
`forward + reverse + C_uptake * indicator` with upper bound `C_uptake`,
the indicator coefficient being the same `C_uptake`. -/
theorem C5_coupling_constraint_form (L : LoaderSet) (path : String)
    (biomass core : List String) (C g : ℚ) (mdl : CModel) (st : LumpGEMState)
    (r : Reaction)
    (hload : load_model L path = some mdl)
    (hnd : (mdl.reactions.map (fun x => x.id)).Nodup)
    (hinit : lumpgem_init L path biomass core C g = Except.ok st)
    (hr : r ∈ st.part.rncore) :
    st.coupling.filter (mentionsInd r.id) = [couplingFor C r.id] := by
  cases hp : partitionRxns biomass core mdl.reactions initPartitionState with
  | error e =>
    simp only [lumpgem_init, hload, hp] at hinit
    cases hinit
  | ok part =>
    simp only [lumpgem_init, hload, hp, Except.ok.injEq] at hinit
    subst hinit
    simp only at hr ⊢
    have hsub := partition_rncore_sublist biomass core mdl.reactions
      initPartitionState part hp
    simp only [initPartitionState, List.map_nil, List.nil_append] at hsub
    have hnd' : (part.rncore.map (fun x => x.id)).Nodup := hnd.sublist hsub
    have hmem : r.id ∈ part.rncore.map (fun x => x.id) :=
      List.mem_map_of_mem (fun x => x.id) hr
    exact gen_filter_mem C r.id part.rncore hnd' hmem

/-- Concrete instantiation of the C5 theorem on a two-reaction model. -/
theorem C5_witness :
    stW.coupling.filter (mentionsInd rxnR3.id) = [couplingFor 10 rxnR3.id] :=
  C5_coupling_constraint_form loadersW ("toy.mat") [] (["Glycolysis"]) 10 1
    cmdlW stW rxnR3 (by rfl) (by decide) (by rfl) (by decide)

/-- Claim C8: constructing a LumpGEM from a path whose extension is none of
.mat, .yml, .json, .xml yields no model (`_load_model` returns None) and
construction fails fatally: the None model raises AttributeError inside
the constructor, with no recovery attempted. -/
theorem C8_unrecognized_extension (L : LoaderSet) (path : String)
    (biomass core : List String) (C g : ℚ)
    (h1 : ¬ (path.takeRight 4 = ".mat")) (h2 : ¬ (path.takeRight 4 = ".yml"))
    (h3 : ¬ (path.takeRight 5 = ".json")) (h4 : ¬ (path.takeRight 4 = ".xml")) :
    load_model L path = none ∧
      lumpgem_init L path biomass core C g = Except.error noneTypeErr := by
  have hl : load_model L path = none := by
    unfold load_model
    rw [if_neg h1, if_neg h2, if_neg h3, if_neg h4]
  refine ⟨hl, ?_⟩
  unfold lumpgem_init
  rw [hl]

/-- Concrete instantiation of the C8 theorem at the path model.txt. -/
theorem C8_witness :
    load_model loadersW ("model.txt") = none ∧
      lumpgem_init loadersW ("model.txt") [] [] 10 1
        = Except.error noneTypeErr :=
  C8_unrecognized_extension loadersW ("model.txt") [] [] 10 1
    (by decide) (by decide) (by decide) (by decide)

/-- Claim C2: the spec requires the transient GrowthConstraint to be
removed on every exit path of `lump_reaction`, including a raising solve
step.  The source removes it only after a fully successful aggregation, so
on a solver failure the constraint stays registered: here a call against a
problem holding no growth constraint propagates the failure and leaves one
GrowthConstraint in the problem. -/
theorem C2_growth_constraint_leak :
    errOf (lump_reaction failSolver dEx stEx bioB).1 = some infeasibleMsg ∧
      countGrowth (lump_reaction failSolver dEx stEx bioB).2.consVars = 1 :=
  ⟨rfl, rfl⟩

/-- Claim C3: the spec requires a reaction id with no flux value in the
solution to contribute zero without crashing.  In the source
`solution.fluxes.get(rxn.id)` yields None for the missing id and the
subsequent multiplication raises TypeError: a solution lacking the core
reaction R1 makes `lump_reaction` raise instead of contributing zero. -/
theorem C3_missing_flux_type_error :
    errOf (lump_reaction solverMissing dEx stEx bioB).1 = some typeErrMsg :=
  rfl

/-- Once a thermo flag is false, further deactivations keep it false. -/
theorem foldl_deactivate_preserve (l : List Reaction) (f : String → Bool)
    (x : String) (h : f x = false) :
    (l.foldl (fun g r => deactivateThermo g r.id) f) x = false := by
  induction l generalizing f with
  | nil => exact h
  | cons a rest ih =>
    refine ih _ ?_
    simp only [deactivateThermo]
    by_cases hx : x = a.id
    · simp [hx]
    · simp [hx, h]

/-- After the deactivation loop, every listed reaction has a false flag. -/
theorem foldl_deactivate_false (l : List Reaction) (r : Reaction)
    (hr : r ∈ l) :
    ∀ f : String → Bool,
      (l.foldl (fun g x => deactivateThermo g x.id) f) r.id = false := by
  induction l with
  | nil => cases hr
  | cons a rest ih =>
    intro f
    rcases List.mem_cons.mp hr with h | h
    · subst h
      exact foldl_deactivate_preserve rest _ r.id (by simp [deactivateThermo])
    · exact ih h _

/-- Claim C7: every `run_optimisation` call performs, in order, the prepare
step, the deactivation of the thermodynamic flag of every non-core
reaction, the convert step, and the solve whose solution it returns; and
the call itself adds no constraints or variables to the problem and
removes none. -/
theorem C7_run_optimisation_contract (solver : MState → Except String Solution)
    (d : LumpData) (st : MState) :
    (run_optimisation solver d st).1
        = [DriverEvent.prepare]
          ++ d.rncore.map (fun r => DriverEvent.deactivate r.id)
          ++ [DriverEvent.convert, DriverEvent.solve]
      ∧ (∀ r, r ∈ d.rncore →
          (run_optimisation solver d st).2.1.thermo r.id = false)
      ∧ (run_optimisation solver d st).2.1.consVars = st.consVars
      ∧ (run_optimisation solver d st).2.2
          = solver (run_optimisation solver d st).2.1 := by
  refine ⟨rfl, ?_, rfl, rfl⟩
  intro r hr
  exact foldl_deactivate_false d.rncore r hr st.thermo

/-- Concrete instantiation of the C7 theorem: after the call, the non-core
reaction R3 has its thermodynamic flag off. -/
theorem C7_witness :
    (run_optimisation solverFull dEx stEx).2.1.thermo rxnR3.id = false :=
  (C7_run_optimisation_contract solverFull dEx stEx).2.1 rxnR3 (by decide)

/-- Evaluating the comprehension sum when every element scales
successfully. -/
theorem sumScaledE_ok (f : Reaction → Except String (String → ℚ))
    (g : Reaction → String → ℚ) (l : List Reaction)
    (h : ∀ r ∈ l, f r = Except.ok (g r)) :
    sumScaledE f l = Except.ok (fun m => (l.map (fun r => g r m)).sum) := by
  induction l with
  | nil =>
    simp only [sumScaledE, List.map_nil, List.sum_nil]
  | cons a rest ih =>
    have ha : f a = Except.ok (g a) := h a (List.mem_cons_self a rest)
    have hrest := ih (fun r hr => h r (List.mem_cons_of_mem a hr))
    simp only [sumScaledE, ha, hrest]
    simp

/-- Scaling a reaction whose flux id is present in the solution. -/
theorem rxnTimesFlux_ok (sol : Solution) (r : Reaction)
    (h : (fluxGet sol r.id).isSome) :
    rxnTimesFlux sol r
      = Except.ok (fun m => coeff r m * (fluxGet sol r.id).getD 0) := by
  obtain ⟨v, hv⟩ := Option.isSome_iff_exists.mp h
  simp [rxnTimesFlux, hv]

/-- Scaling a non-core reaction whose flux id is present in the solution. -/
theorem rxnTimesFluxTimesPrimal_ok (sol : Solution) (r : Reaction)
    (h : (fluxGet sol r.id).isSome) :
    rxnTimesFluxTimesPrimal sol r
      = Except.ok (fun m =>
          coeff r m * (fluxGet sol r.id).getD 0 * sol.primal r.id) := by
  obtain ⟨v, hv⟩ := Option.isSome_iff_exists.mp h
  simp [rxnTimesFluxTimesPrimal, hv]

/-- Claim C4: with a solver that returns a solution in which every core and
non-core reaction id has a flux value, `lump_reaction` returns the
pointwise sum of the core contributions (stoichiometry scaled by the
solution flux) and the non-core contributions (stoichiometry scaled by the
product of the solution flux and the indicator primal). -/
theorem C4_lumped_reaction_formula (solver : MState → Except String Solution)
    (sol : Solution) (d : LumpData) (st : MState) (bio : Reaction)
    (hs : ∀ s, solver s = Except.ok sol)
    (hc : ∀ r ∈ d.rcore, (fluxGet sol r.id).isSome)
    (hn : ∀ r ∈ d.rncore, (fluxGet sol r.id).isSome) :
    (lump_reaction solver d st bio).1
      = Except.ok (fun m =>
          (d.rcore.map (fun r =>
            coeff r m * (fluxGet sol r.id).getD 0)).sum
          + (d.rncore.map (fun r =>
              coeff r m * (fluxGet sol r.id).getD 0 * sol.primal r.id)).sum) := by
  have hcore : lumped_core_fn sol d.rcore
      = Except.ok (fun m => (d.rcore.map (fun r =>
          coeff r m * (fluxGet sol r.id).getD 0)).sum) :=
    sumScaledE_ok _ _ _ (fun r hr => rxnTimesFlux_ok sol r (hc r hr))
  have hnc : lumped_ncore_fn sol d.rncore
      = Except.ok (fun m => (d.rncore.map (fun r =>
          coeff r m * (fluxGet sol r.id).getD 0 * sol.primal r.id)).sum) :=
    sumScaledE_ok _ _ _ (fun r hr => rxnTimesFluxTimesPrimal_ok sol r (hn r hr))
  simp only [lump_reaction, run_optimisation, hs, hcore, hnc]

/-- Concrete instantiation of the C4 theorem on a one-core, one-non-core
model with a complete solution. -/
theorem C4_witness :
    (∀ r ∈ dEx.rcore, (fluxGet solFull r.id).isSome) ∧
      (lump_reaction solverFull dEx stEx bioB).1
        = Except.ok (fun m =>
            (dEx.rcore.map (fun r =>
              coeff r m * (fluxGet solFull r.id).getD 0)).sum
            + (dEx.rncore.map (fun r =>
                coeff r m * (fluxGet solFull r.id).getD 0
                  * solFull.primal r.id)).sum) :=
  ⟨by decide,
   C4_lumped_reaction_formula solverFull solFull dEx stEx bioB
     (fun _ => rfl) (by decide) (by decide)⟩

/-- Claim C9: under RequirePrefixMeta, any class created with parent
classes whose body does not declare the required naming attribute is
rejected at class-creation time by NotImplementedError, while base
classes (created without parents, which is how the abstract roots are
declared) are exempt from the check. -/
theorem C9_require_prefix_enforced (bases : List String)
    (attrs : List (String × PyVal))
    (hb : bases ≠ [])
    (hnp : attrs.find? (fun p => decide (p.1 = "prefix")) = none) :
    requirePrefixMetaInit bases attrs = Except.error notImplErrMsg ∧
      ∀ a2 : List (String × PyVal),
        requirePrefixMetaInit [] a2 = Except.ok () := by
  have hd : dictGetD attrs ("prefix") PyVal.notImpl = PyVal.notImpl := by
    unfold dictGetD
    rw [hnp]
    rfl
  constructor
  · unfold requirePrefixMetaInit
    rw [if_neg hb, if_pos hd]
  · intro a2
    rfl

/-- Concrete instantiation of the C9 theorem: a subclass of a single base
declaring no attributes at all is rejected. -/
theorem C9_witness :
    requirePrefixMetaInit (["GenericVariable"]) []
      = Except.error notImplErrMsg :=
  (C9_require_prefix_enforced (["GenericVariable"]) [] (by decide) (by rfl)).1
